import Mathlib

/-!
Verification of the ShellShade terminal-theme manager's multi-format theme
translation layer: a shallow embedding of the format parsers
(`src/main/services/parsers.ts`), the installers (`src/main/services/installer.ts`,
`src/cli/index.ts`) and the theme-color store lookup, together with theorems
settling the specification claims about them.

Conventions of the embedding:
* TypeScript string values are Lean `String`s; JavaScript floating-point color
  components are modelled as exact rationals `ℚ` (every concrete component
  appearing in the claims — 0, 1, 0.5, 1.2 — behaves identically in binary64
  and in `ℚ` for the computations at hand, which stay far from any rounding
  boundary of `Math.round`).
* JSON documents (including the output of the external `plutil` plist-to-JSON
  conversion used by the iTerm2 parser) are a small inductive `Json` type.
* File-system reads and external-process results are explicit inputs: a
  `FileInput` carries the file path, its textual contents, and the results of
  the two external conversions a parser may consult (`plutil`, `JSON.parse`),
  with `none` modelling the conversion throwing.
* Fallible TypeScript functions that `throw` are embedded as
  `Except String α`, the `String` being the thrown error message.
-/

/-! ## Canonical color model (`src/shared/types/theme.ts`) -/

/-- The 16-slot ANSI palette of `interface AnsiColors`. -/
structure AnsiColors where
  black : String
  red : String
  green : String
  yellow : String
  blue : String
  magenta : String
  cyan : String
  white : String
  brightBlack : String
  brightRed : String
  brightGreen : String
  brightYellow : String
  brightBlue : String
  brightMagenta : String
  brightCyan : String
  brightWhite : String
deriving DecidableEq, Repr

/-- The 22 required canonical slots of `interface ThemeColors` (the optional
`link`/`badge`/`tab` extended slots are set by no parser in the source and are
omitted). -/
structure ThemeColors where
  background : String
  foreground : String
  cursor : String
  cursorText : String
  selection : String
  selectionText : String
  ansi : AnsiColors
deriving DecidableEq, Repr

/-- `interface ParsedTheme` of `parsers.ts`; also serves as the spec's
`CanonicalTheme` (a display name plus the canonical colors). -/
structure ParsedTheme where
  name : String
  colors : ThemeColors
deriving DecidableEq, Repr

/-- All 22 required slots are populated (non-empty), the spec's
"core colors never null" invariant. -/
def allPopulated (tc : ThemeColors) : Prop :=
  tc.background ≠ "" ∧ tc.foreground ≠ "" ∧ tc.cursor ≠ "" ∧
  tc.cursorText ≠ "" ∧ tc.selection ≠ "" ∧ tc.selectionText ≠ "" ∧
  tc.ansi.black ≠ "" ∧ tc.ansi.red ≠ "" ∧ tc.ansi.green ≠ "" ∧
  tc.ansi.yellow ≠ "" ∧ tc.ansi.blue ≠ "" ∧ tc.ansi.magenta ≠ "" ∧
  tc.ansi.cyan ≠ "" ∧ tc.ansi.white ≠ "" ∧ tc.ansi.brightBlack ≠ "" ∧
  tc.ansi.brightRed ≠ "" ∧ tc.ansi.brightGreen ≠ "" ∧
  tc.ansi.brightYellow ≠ "" ∧ tc.ansi.brightBlue ≠ "" ∧
  tc.ansi.brightMagenta ≠ "" ∧ tc.ansi.brightCyan ≠ "" ∧
  tc.ansi.brightWhite ≠ ""

instance (tc : ThemeColors) : Decidable (allPopulated tc) := by
  unfold allPopulated; infer_instance

/-! ## Character classes and string helpers (JavaScript semantics) -/

/-- JavaScript's `\s` / `String.prototype.trim` whitespace, restricted to the
ASCII characters that can occur in theme files. -/
def isJsSpace (c : Char) : Bool :=
  c = ' ' || c = '\t' || c = '\n' || c = '\x0d' || c = '\x0b' || c = '\x0c'

/-- JavaScript's `\w` word-character class (ASCII). -/
def isWordChar (c : Char) : Bool :=
  ('a' ≤ c && c ≤ 'z') || ('A' ≤ c && c ≤ 'Z') || ('0' ≤ c && c ≤ '9') || c = '_'

/-- `[0-9a-fA-F]`. -/
def isHexDigit (c : Char) : Bool :=
  ('0' ≤ c && c ≤ '9') || ('a' ≤ c && c ≤ 'f') || ('A' ≤ c && c ≤ 'F')

/-- `[0-9a-f]` (a lowercase hex digit). -/
def isLowerHexDigit (c : Char) : Bool :=
  ('0' ≤ c && c ≤ '9') || ('a' ≤ c && c ≤ 'f')

/-- `String.prototype.trim`. -/
def jsTrim (s : String) : String :=
  String.mk (((s.data.dropWhile isJsSpace).reverse.dropWhile isJsSpace).reverse)

/-- `String.prototype.toLowerCase`, ASCII. -/
def toLowerStr (s : String) : String :=
  String.mk (s.data.map Char.toLower)

/-- Does the list start with the given prefix of characters? -/
def startsWithChars : List Char → List Char → Bool
  | _, [] => true
  | [], _ :: _ => false
  | c :: t, d :: u => c = d && startsWithChars t u

/-- Does the string `b` end with `suf`? -/
def endsWithStr (b suf : String) : Bool :=
  startsWithChars b.data.reverse suf.data.reverse

/-- Node's `path.basename(p)` for POSIX paths (the text after the last `/`). -/
def basenameStr (p : String) : String :=
  String.mk ((p.data.reverse.takeWhile (fun c => !(c = '/'))).reverse)

/-- Node's `path.basename(p, ext)`: the basename with the suffix `ext`
removed when it is a proper suffix. -/
def basenameStrip (p ext : String) : String :=
  let b := basenameStr p
  if !(b = ext) && endsWithStr b ext then
    String.mk (b.data.take (b.data.length - ext.data.length))
  else b

/-- Node's `path.extname(p)`: from the last `.` of the basename to the end;
empty when the basename has no `.` or its only `.` is its first character. -/
def extname (p : String) : String :=
  let rev := (basenameStr p).data.reverse
  let afterDot := rev.takeWhile (fun c => !(c = '.'))
  if afterDot.length = rev.length then ""
  else if afterDot.length + 1 = rev.length then ""
  else String.mk ('.' :: afterDot.reverse)

/-- JavaScript `a || b` on strings (the empty string is the only falsy one). -/
def jsStrOr (a b : String) : String := if a = "" then b else a

/-- `content.split('\n')` (structural, so that concrete parses evaluate in
the kernel): accumulates the current line in reverse. -/
def splitLinesAux : List Char → List Char → List String
  | [], acc => [String.mk acc.reverse]
  | c :: t, acc =>
    if c = '\n' then String.mk acc.reverse :: splitLinesAux t []
    else splitLinesAux t (c :: acc)

/-- JavaScript's `content.split('\n')`. -/
def splitLines (s : String) : List String := splitLinesAux s.data []

/-! ## JSON values

Output of `JSON.parse`, also used for the JSON rendition of a property-list
document produced by the external `plutil -convert json` collaborator. -/

/-- A JSON value. -/
inductive Json where
  | null
  | bool (b : Bool)
  | num (q : ℚ)
  | str (s : String)
  | arr (xs : List Json)
  | obj (fields : List (String × Json))

/-- Member access `j[key]` on a JSON value: `none` models `undefined`.
(Objects produced by `JSON.parse` have unique keys, so first-match lookup
is exact.) -/
def jget : Json → String → Option Json
  | .obj fields, k => fields.lookup k
  | _, _ => none

/-- JavaScript truthiness of a JSON value. -/
def jsTruthy : Json → Bool
  | .null => false
  | .bool b => b
  | .num q => !(q = 0)
  | .str s => !(s = "")
  | .arr _ => true
  | .obj _ => true

/-- Truthiness of a possibly-`undefined` value. -/
def jsTruthyO : Option Json → Bool
  | none => false
  | some j => jsTruthy j

/-! ## iTerm2 color conversion (`parseItermColors.getColor`, duplicated
verbatim in `parseJson`'s profile branch) -/

/-- JavaScript's `Math.round` on an exact rational. -/
def jsRound (q : ℚ) : ℤ := ⌊q + 1/2⌋

/-- JavaScript's `Number.prototype.toString(16)` on an integer. -/
def jsHexString (n : ℤ) : String :=
  if n < 0 then "-" ++ String.mk (Nat.toDigits 16 n.natAbs)
  else String.mk (Nat.toDigits 16 n.toNat)

/-- `String.prototype.padStart(2, '0')`. -/
def padStart2 (s : String) : String :=
  if s.length ≥ 2 then s else String.mk (List.replicate (2 - s.length) '0' ++ s.data)

/-- `(colorDict[key] || 0)`: the numeric component of a color dictionary,
defaulting to 0 when the key is absent (or its value is not a number —
`plutil` always produces numbers for plist reals). -/
def itermComp (d : Json) (k : String) : ℚ :=
  match jget d k with
  | some (.num q) => q
  | _ => 0

/-- `Math.round((colorDict[k] || 0) * 255).toString(16).padStart(2, '0')`. -/
def itermComponentHex (d : Json) (k : String) : String :=
  padStart2 (jsHexString (jsRound (itermComp d k * 255)))

/-- `getColor` of `parseItermColors` (and of `parseJson`'s profile branch):
absent or falsy color dictionary yields `"#000000"`; otherwise each component
is `Math.round(c*255)` rendered in hex — note the source performs no
clamping of the rounded value to `[0, 255]`. -/
def itermGetColor (doc : Json) (key : String) : String :=
  match jget doc key with
  | none => "#000000"
  | some d =>
    if jsTruthy d then
      "#" ++ itermComponentHex d "Red Component" ++ itermComponentHex d "Green Component"
        ++ itermComponentHex d "Blue Component"
    else "#000000"

/-- The 22-slot extraction shared by `parseItermColors` and `parseJson`'s
profile branch (the source duplicates this block verbatim in both). The
`jsStrOr` fallbacks mirror `getColor('Cursor Text Color') ||
getColor('Background Color')` and the analogous selection-text line. -/
def itermColorsFromDoc (doc : Json) : ThemeColors :=
  { background := itermGetColor doc "Background Color"
    foreground := itermGetColor doc "Foreground Color"
    cursor := itermGetColor doc "Cursor Color"
    cursorText := jsStrOr (itermGetColor doc "Cursor Text Color") (itermGetColor doc "Background Color")
    selection := itermGetColor doc "Selection Color"
    selectionText := jsStrOr (itermGetColor doc "Selected Text Color") (itermGetColor doc "Foreground Color")
    ansi :=
    { black := itermGetColor doc "Ansi 0 Color"
      red := itermGetColor doc "Ansi 1 Color"
      green := itermGetColor doc "Ansi 2 Color"
      yellow := itermGetColor doc "Ansi 3 Color"
      blue := itermGetColor doc "Ansi 4 Color"
      magenta := itermGetColor doc "Ansi 5 Color"
      cyan := itermGetColor doc "Ansi 6 Color"
      white := itermGetColor doc "Ansi 7 Color"
      brightBlack := itermGetColor doc "Ansi 8 Color"
      brightRed := itermGetColor doc "Ansi 9 Color"
      brightGreen := itermGetColor doc "Ansi 10 Color"
      brightYellow := itermGetColor doc "Ansi 11 Color"
      brightBlue := itermGetColor doc "Ansi 12 Color"
      brightMagenta := itermGetColor doc "Ansi 13 Color"
      brightCyan := itermGetColor doc "Ansi 14 Color"
      brightWhite := itermGetColor doc "Ansi 15 Color" } }

/-! ## File inputs -/

/-- A file presented to a parser, together with the results of the external
conversions a parser may consult.  `plist` is the `plutil -convert json` +
`JSON.parse` rendition of the file used by `parseItermColors` (`none` models
the file being unreadable or `plutil` failing); `json` is `JSON.parse` of
`content` used by `parseJson` (`none` models the parse throwing). -/
structure FileInput where
  path : String
  content : String
  plist : Option Json
  json : Option Json

/-- `parseItermColors` (parsers.ts): names the theme after the file, converts
the plist via the external utility, and extracts the 22 slots; a failed
conversion throws. -/
def parseItermColors (f : FileInput) : Except String ParsedTheme :=
  match f.plist with
  | none => .error "Failed to parse iTerm colors file: plutil conversion failed"
  | some doc => .ok { name := basenameStrip f.path ".itermcolors", colors := itermColorsFromDoc doc }

/-! ## Validity predicates (spec §4.1 / claim C1) -/

/-- Spec §4.1 `isValidHexColor`: `#` followed by exactly 6 hex digits
(case-insensitive). -/
def isValidHexColor (s : String) : Bool :=
  s.data.length = 7 && startsWithChars s.data ['#'] && (s.data.drop 1).all isHexDigit

/-- `#` followed by exactly 6 lowercase hex digits. -/
def isLowerHexColor (s : String) : Bool :=
  s.data.length = 7 && startsWithChars s.data ['#'] && (s.data.drop 1).all isLowerHexDigit

/-- Exactly two lowercase hex digits. -/
def isTwoLowerHex (s : String) : Bool :=
  s.data.length = 2 && s.data.all isLowerHexDigit

/-! ## `parseTerminalApp` (parsers.ts) -/

/-- The message of the error `parseTerminalApp` unconditionally throws. -/
def terminalAppUnsupportedMsg : String :=
  "Terminal.app (.terminal) format uses NSKeyedArchiver which requires native parsing. " ++
  "Please export your theme from iTerm2 as .itermcolors instead, or use a different format."

/-- `parseTerminalApp`: always fails, ignoring its argument entirely (the
source never touches the file). -/
def parseTerminalApp (_f : FileInput) : Except String ParsedTheme :=
  .error terminalAppUnsupportedMsg

/-! ## `parseKitty` (parsers.ts) -/

/-- The regex match `/^(\w+)\s+(#[0-9a-fA-F]{6})/` on an (already trimmed)
line: a non-empty run of word characters, whitespace, then `#` and six hex
digits (anything after them is ignored); the captured value is lowercased
by the caller, which we fold in here. -/
def kittyLineMatch (t : String) : Option (String × String) :=
  let cs := t.data
  let w := cs.takeWhile isWordChar
  if w.isEmpty then none else
  let r1 := cs.drop w.length
  let sp := r1.takeWhile isJsSpace
  if sp.isEmpty then none else
  match r1.drop sp.length with
  | '#' :: rest =>
    let h := rest.take 6
    if h.length = 6 && h.all isHexDigit then
      some (String.mk w, String.mk ('#' :: h.map Char.toLower))
    else none
  | _ => none

/-- One line of `parseKitty`'s loop: skip blank and `#`-comment lines,
record a match into the flat string map (later lines overwrite). -/
def kittyStep (m : String → Option String) (line : String) : String → Option String :=
  let t := jsTrim line
  if t = "" then m
  else if startsWithChars t.data ['#'] then m
  else match kittyLineMatch t with
    | some (k, v) => fun x => if x = k then some v else m x
    | none => m

/-- The flat `token -> hexvalue` map `parseKitty` builds from the file text. -/
def kittyMapOf (content : String) : String → Option String :=
  (splitLines content).foldl kittyStep (fun _ => none)

/-- `colors[key] || fallback`. -/
def getColorM (m : String → Option String) (key fallback : String) : String :=
  match m key with
  | some v => if v = "" then fallback else v
  | none => fallback

/-- The 22-slot extraction of `parseKitty` with its hard-coded fallback
palette. -/
def kittyColorsOf (content : String) : ThemeColors :=
  let m := kittyMapOf content
  { background := getColorM m "background" "#1d1f21"
    foreground := getColorM m "foreground" "#c5c8c6"
    cursor := getColorM m "cursor" (getColorM m "foreground" "#c5c8c6")
    cursorText := getColorM m "cursor_text_color" (getColorM m "background" "#1d1f21")
    selection := getColorM m "selection_background" "#373b41"
    selectionText := getColorM m "selection_foreground" (getColorM m "foreground" "#c5c8c6")
    ansi :=
    { black := getColorM m "color0" "#1d1f21"
      red := getColorM m "color1" "#cc6666"
      green := getColorM m "color2" "#b5bd68"
      yellow := getColorM m "color3" "#f0c674"
      blue := getColorM m "color4" "#81a2be"
      magenta := getColorM m "color5" "#b294bb"
      cyan := getColorM m "color6" "#8abeb7"
      white := getColorM m "color7" "#c5c8c6"
      brightBlack := getColorM m "color8" "#969896"
      brightRed := getColorM m "color9" "#de935f"
      brightGreen := getColorM m "color10" "#b5bd68"
      brightYellow := getColorM m "color11" "#f0c674"
      brightBlue := getColorM m "color12" "#81a2be"
      brightMagenta := getColorM m "color13" "#b294bb"
      brightCyan := getColorM m "color14" "#8abeb7"
      brightWhite := getColorM m "color15" "#ffffff" } }

/-- `parseKitty`: reads the file text (readability is a precondition of the
embedding), names the theme after the file, never fails. -/
def parseKitty (f : FileInput) : Except String ParsedTheme :=
  .ok { name := basenameStrip f.path (extname f.path), colors := kittyColorsOf f.content }

/-! ## `parseAlacritty` (parsers.ts) -/

/-- Is a character one of the two JavaScript quote characters `'` `"`
tested by `parseAlacritty`'s section-header condition? -/
def isQuoteChar (c : Char) : Bool :=
  c = Char.ofNat 39 || c = Char.ofNat 34

/-- `trimmed.includes("'") || trimmed.includes('"')`. -/
def containsQuote (t : String) : Bool :=
  t.data.any isQuoteChar

/-- `trimmed.replace(':', '')`: remove the first `:` only. -/
def removeFirstColon : List Char → List Char
  | [] => []
  | c :: t => if c = ':' then t else c :: removeFirstColon t

/-- The value alternation `['"]?(#?[0-9a-fA-F]{6}|0x[0-9a-fA-F]{6})` of
`parseAlacritty`'s line regex, applied after `:\s*`: an optional opening
quote (a quote that is not followed by a valid value cannot be re-read as a
value, so no backtracking arises), then either `#` + 6 hex digits, 6 bare hex
digits, or `0x` + 6 hex digits (left alternative first, as the regex engine
does). Returns the raw captured value. -/
def alacrittyValueAt (r2 : List Char) : Option (List Char) :=
  let r3 := match r2 with
    | c :: rest => if isQuoteChar c then rest else r2
    | [] => r2
  match r3 with
  | '#' :: rest =>
    let h := rest.take 6
    if h.length = 6 && h.all isHexDigit then some ('#' :: h) else none
  | _ =>
    let h := r3.take 6
    if h.length = 6 && h.all isHexDigit then some h
    else match r3 with
      | '0' :: 'x' :: rest =>
        let h2 := rest.take 6
        if h2.length = 6 && h2.all isHexDigit then some ('0' :: 'x' :: h2) else none
      | _ => none

/-- The full line match `/^(\w+):\s*['"]?(#?[0-9a-fA-F]{6}|0x[0-9a-fA-F]{6})['"]?/`
plus the caller's normalization: `0x` becomes `#`, a bare value gains `#`, and
the result is lowercased. -/
def alacrittyLineMatch (t : String) : Option (String × String) :=
  let cs := t.data
  let w := cs.takeWhile isWordChar
  if w.isEmpty then none else
  match cs.drop w.length with
  | ':' :: r1 =>
    let r2 := r1.dropWhile isJsSpace
    match alacrittyValueAt r2 with
    | some raw =>
      let v := match raw with
        | '0' :: 'x' :: rest => '#' :: rest
        | '#' :: rest => '#' :: rest
        | bare => '#' :: bare
      some (String.mk w, String.mk (v.map Char.toLower))
    | none => none
  | _ => none

/-- The scanner state of `parseAlacritty`'s loop. -/
structure AlacrittyState where
  inColors : Bool
  currentSection : String
  m : String → Option String

/-- One line of `parseAlacritty`'s loop, in the source's check order:
blank/comment skip, the `colors:` toggle, the not-yet-in-colors skip, the
section-header detection (`<word>:` lines without quotes), then the
key/value match recorded under `section.key`. -/
def alacrittyStep (st : AlacrittyState) (line : String) : AlacrittyState :=
  let t := jsTrim line
  if t = "" then st
  else if startsWithChars t.data ['#'] then st
  else if t = "colors:" then { st with inColors := true }
  else if !st.inColors then st
  else if endsWithStr t ":" && !containsQuote t then
    { st with currentSection := jsTrim (String.mk (removeFirstColon t.data)) }
  else match alacrittyLineMatch t with
    | some (k, v) =>
      let fullKey := if st.currentSection = "" then k else st.currentSection ++ "." ++ k
      { st with m := fun x => if x = fullKey then some v else st.m x }
    | none => st

/-- The flat `section.key -> hexvalue` map `parseAlacritty` builds. -/
def alacrittyMapOf (content : String) : String → Option String :=
  ((splitLines content).foldl alacrittyStep
    { inColors := false, currentSection := "", m := fun _ => none }).m

/-- The 22-slot extraction of `parseAlacritty` with its hard-coded fallback
palette and nested fallbacks. -/
def alacrittyColorsOf (content : String) : ThemeColors :=
  let m := alacrittyMapOf content
  { background := getColorM m "primary.background" "#1d1f21"
    foreground := getColorM m "primary.foreground" "#c5c8c6"
    cursor := getColorM m "cursor.cursor" (getColorM m "primary.foreground" "#c5c8c6")
    cursorText := getColorM m "cursor.text" (getColorM m "primary.background" "#1d1f21")
    selection := getColorM m "selection.background" "#373b41"
    selectionText := getColorM m "selection.foreground" (getColorM m "primary.foreground" "#c5c8c6")
    ansi :=
    { black := getColorM m "normal.black" "#1d1f21"
      red := getColorM m "normal.red" "#cc6666"
      green := getColorM m "normal.green" "#b5bd68"
      yellow := getColorM m "normal.yellow" "#f0c674"
      blue := getColorM m "normal.blue" "#81a2be"
      magenta := getColorM m "normal.magenta" "#b294bb"
      cyan := getColorM m "normal.cyan" "#8abeb7"
      white := getColorM m "normal.white" "#c5c8c6"
      brightBlack := getColorM m "bright.black" "#969896"
      brightRed := getColorM m "bright.red" "#de935f"
      brightGreen := getColorM m "bright.green" "#b5bd68"
      brightYellow := getColorM m "bright.yellow" "#f0c674"
      brightBlue := getColorM m "bright.blue" "#81a2be"
      brightMagenta := getColorM m "bright.magenta" "#b294bb"
      brightCyan := getColorM m "bright.cyan" "#8abeb7"
      brightWhite := getColorM m "bright.white" "#ffffff" } }

/-- `parseAlacritty`: reads the file text, names the theme after the file,
never fails. -/
def parseAlacritty (f : FileInput) : Except String ParsedTheme :=
  .ok { name := basenameStrip f.path (extname f.path), colors := alacrittyColorsOf f.content }

/-! ## `parseJson` (parsers.ts) -/

/-- `data.name || name`: the document's `name` member when it is a truthy
string, the file-derived fallback otherwise (non-string names do not occur in
theme documents). -/
def jsNameOr (j : Option Json) (fallback : String) : String :=
  match j with
  | some (.str s) => if s = "" then fallback else s
  | _ => fallback

/-- A string member of a JSON object, `""` for an absent or non-string member
(`undefined` flowing into a string-typed slot). -/
def strField (j : Json) (k : String) : String :=
  match jget j k with
  | some (.str s) => s
  | _ => ""

/-- The canonical-shape branch of `parseJson` returns `data.colors` through an
unchecked TypeScript cast; on documents of the canonical shape this is exactly
the field-by-field reading below (absent or non-string members surface as
empty strings in the string-typed slots). -/
def decodeThemeColors (j : Json) : ThemeColors :=
  let a := (jget j "ansi").getD .null
  { background := strField j "background"
    foreground := strField j "foreground"
    cursor := strField j "cursor"
    cursorText := strField j "cursorText"
    selection := strField j "selection"
    selectionText := strField j "selectionText"
    ansi :=
    { black := strField a "black"
      red := strField a "red"
      green := strField a "green"
      yellow := strField a "yellow"
      blue := strField a "blue"
      magenta := strField a "magenta"
      cyan := strField a "cyan"
      white := strField a "white"
      brightBlack := strField a "brightBlack"
      brightRed := strField a "brightRed"
      brightGreen := strField a "brightGreen"
      brightYellow := strField a "brightYellow"
      brightBlue := strField a "brightBlue"
      brightMagenta := strField a "brightMagenta"
      brightCyan := strField a "brightCyan"
      brightWhite := strField a "brightWhite" } }

/-- `parseJson`: the native canonical shape (`data.colors && data.colors.ansi`)
is returned near-verbatim; otherwise a non-empty `Profiles` array is decoded
with the same per-component float model as the property-list parser; otherwise
the parse fails. -/
def parseJson (f : FileInput) : Except String ParsedTheme :=
  let name := basenameStrip f.path ".json"
  match f.json with
  | none => .error "Unexpected token in JSON"
  | some data =>
    if jsTruthyO (jget data "colors") &&
       jsTruthyO (match jget data "colors" with | some c => jget c "ansi" | none => none) then
      .ok { name := jsNameOr (jget data "name") name
            colors := decodeThemeColors ((jget data "colors").getD .null) }
    else match jget data "Profiles" with
      | some (.arr (p :: _)) =>
        .ok { name := jsNameOr (jget p "Name") name, colors := itermColorsFromDoc p }
      | _ => .error "Unrecognized JSON theme format"

/-! ## `parseThemeFile` (parsers.ts): the extension dispatcher -/

/-- `parseThemeFile`: lowercases the file's extension and routes to exactly
one parser; unknown extensions fail.  The source's surrounding `try/catch`
logs and rethrows unchanged. -/
def parseThemeFile (f : FileInput) : Except String ParsedTheme :=
  let ext := toLowerStr (extname f.path)
  if ext = ".itermcolors" then parseItermColors f
  else if ext = ".terminal" then parseTerminalApp f
  else if ext = ".yaml" then parseAlacritty f
  else if ext = ".yml" then parseAlacritty f
  else if ext = ".json" then parseJson f
  else if ext = ".conf" then parseKitty f
  else .error ("Unsupported file format: " ++ ext)

/-! ## Theme-color store lookup (`getThemeColors` in installer.ts,
`getFullThemeColors` in cli/index.ts — the two are textually identical) -/

/-- `new Map(rows).get(key)`: the `Map` constructor lets later rows with the
same key overwrite earlier ones, so the lookup returns the last matching
row's value. -/
def jsMapGet (rows : List (String × String)) (k : String) : Option String :=
  rows.reverse.lookup k

/-- `colorMap.get(key) || default` (an empty stored string is falsy and also
falls back). -/
def orDefault (o : Option String) (d : String) : String :=
  match o with
  | some v => if v = "" then d else v
  | none => d

/-- `getThemeColors` (installer.ts): `null` when the store holds no color
rows for the theme; otherwise each of the 22 slots from the row map with its
per-slot built-in default. -/
def getThemeColors (rows : List (String × String)) : Option ThemeColors :=
  if rows.length = 0 then none
  else some
  { background := orDefault (jsMapGet rows "background") "#000000"
    foreground := orDefault (jsMapGet rows "foreground") "#ffffff"
    cursor := orDefault (jsMapGet rows "cursor") "#ffffff"
    cursorText := orDefault (jsMapGet rows "cursorText") "#000000"
    selection := orDefault (jsMapGet rows "selection") "#444444"
    selectionText := orDefault (jsMapGet rows "selectionText") "#ffffff"
    ansi :=
    { black := orDefault (jsMapGet rows "ansi_black") "#000000"
      red := orDefault (jsMapGet rows "ansi_red") "#ff0000"
      green := orDefault (jsMapGet rows "ansi_green") "#00ff00"
      yellow := orDefault (jsMapGet rows "ansi_yellow") "#ffff00"
      blue := orDefault (jsMapGet rows "ansi_blue") "#0000ff"
      magenta := orDefault (jsMapGet rows "ansi_magenta") "#ff00ff"
      cyan := orDefault (jsMapGet rows "ansi_cyan") "#00ffff"
      white := orDefault (jsMapGet rows "ansi_white") "#ffffff"
      brightBlack := orDefault (jsMapGet rows "ansi_brightBlack") "#666666"
      brightRed := orDefault (jsMapGet rows "ansi_brightRed") "#ff6666"
      brightGreen := orDefault (jsMapGet rows "ansi_brightGreen") "#66ff66"
      brightYellow := orDefault (jsMapGet rows "ansi_brightYellow") "#ffff66"
      brightBlue := orDefault (jsMapGet rows "ansi_brightBlue") "#6666ff"
      brightMagenta := orDefault (jsMapGet rows "ansi_brightMagenta") "#ff66ff"
      brightCyan := orDefault (jsMapGet rows "ansi_brightCyan") "#66ffff"
      brightWhite := orDefault (jsMapGet rows "ansi_brightWhite") "#ffffff" } }

/-- `getFullThemeColors` (cli/index.ts): body identical to `getThemeColors`
(the CLI duplicates the lookup verbatim). -/
def getFullThemeColors (rows : List (String × String)) : Option ThemeColors :=
  if rows.length = 0 then none
  else some
  { background := orDefault (jsMapGet rows "background") "#000000"
    foreground := orDefault (jsMapGet rows "foreground") "#ffffff"
    cursor := orDefault (jsMapGet rows "cursor") "#ffffff"
    cursorText := orDefault (jsMapGet rows "cursorText") "#000000"
    selection := orDefault (jsMapGet rows "selection") "#444444"
    selectionText := orDefault (jsMapGet rows "selectionText") "#ffffff"
    ansi :=
    { black := orDefault (jsMapGet rows "ansi_black") "#000000"
      red := orDefault (jsMapGet rows "ansi_red") "#ff0000"
      green := orDefault (jsMapGet rows "ansi_green") "#00ff00"
      yellow := orDefault (jsMapGet rows "ansi_yellow") "#ffff00"
      blue := orDefault (jsMapGet rows "ansi_blue") "#0000ff"
      magenta := orDefault (jsMapGet rows "ansi_magenta") "#ff00ff"
      cyan := orDefault (jsMapGet rows "ansi_cyan") "#00ffff"
      white := orDefault (jsMapGet rows "ansi_white") "#ffffff"
      brightBlack := orDefault (jsMapGet rows "ansi_brightBlack") "#666666"
      brightRed := orDefault (jsMapGet rows "ansi_brightRed") "#ff6666"
      brightGreen := orDefault (jsMapGet rows "ansi_brightGreen") "#66ff66"
      brightYellow := orDefault (jsMapGet rows "ansi_brightYellow") "#ffff66"
      brightBlue := orDefault (jsMapGet rows "ansi_brightBlue") "#6666ff"
      brightMagenta := orDefault (jsMapGet rows "ansi_brightMagenta") "#ff66ff"
      brightCyan := orDefault (jsMapGet rows "ansi_brightCyan") "#66ffff"
      brightWhite := orDefault (jsMapGet rows "ansi_brightWhite") "#ffffff" } }

/-! ## iTerm2 installers (`installToIterm2` in installer.ts,
`applyToIterm2` in cli/index.ts) -/

/-- `InstallResult` of `src/shared/types/ipc.ts`. -/
structure InstallResult where
  success : Bool
  path : String
  error : Option String := none
  instructions : Option String := none
deriving DecidableEq, Repr

/-- The anonymous `{ success, message }` result type of the CLI installers. -/
structure CliApplyResult where
  success : Bool
  message : String
deriving DecidableEq, Repr

/-- `themeName.toLowerCase().replace(/[^a-z0-9]+/g, '-')`: each maximal run
of characters outside `[a-z0-9]` collapses to a single `-`. -/
def isLowerAlnum (c : Char) : Bool :=
  ('a' ≤ c && c ≤ 'z') || ('0' ≤ c && c ≤ '9')

mutual
/-- Emit characters, collapsing runs of non-alphanumerics (entry state). -/
def slugEmit : List Char → List Char
  | [] => []
  | c :: t => if isLowerAlnum c then c :: slugEmit t else '-' :: slugSkip t
/-- Inside a non-alphanumeric run that has already emitted its `-`. -/
def slugSkip : List Char → List Char
  | [] => []
  | c :: t => if isLowerAlnum c then c :: slugEmit t else slugSkip t
end

/-- The slug both iTerm2 installers derive from the theme name. -/
def jsSlug (s : String) : String :=
  String.mk (slugEmit (s.data.map Char.toLower))

/-- `installToIterm2` (installer.ts).  The filesystem and the OS-scripting
call are external: `writeOk` is whether `fs.writeFileSync` succeeds and
`applyOk` whether the `osascript` live-apply succeeds; `werr` is the
stringified write exception.  The second component of the result records
whether the profile file is on disk when the call returns — the source never
removes a file it has written. -/
def installToIterm2 (colors : Option ThemeColors) (themeName home werr : String)
    (writeOk applyOk : Bool) : InstallResult × Bool :=
  match colors with
  | none => ({ success := false, path := "", error := some "Theme not found" }, false)
  | some _ =>
    let profilePath := home ++ "/Library/Application Support/iTerm2/DynamicProfiles/"
      ++ jsSlug themeName ++ ".json"
    if writeOk then
      if applyOk then
        ({ success := true, path := profilePath,
           instructions := some ("Theme \"" ++ themeName ++ "\" applied to iTerm2!") }, true)
      else
        ({ success := true, path := profilePath,
           instructions := some ("Theme \"" ++ themeName ++
             "\" installed. Open iTerm2 and select it from Profiles menu, or restart iTerm2.") }, true)
    else
      ({ success := false, path := profilePath,
         error := some ("Failed to write profile: " ++ werr) }, false)

/-- `applyToIterm2` (cli/index.ts): same two-step policy with a
`{ success, message }` result (the dynamic-profile document it writes is not
consulted by any claim and is omitted).  The second component again records
whether the written profile file is on disk. -/
def applyToIterm2 (_colors : ThemeColors) (_themeName : String)
    (writeOk applyOk : Bool) : CliApplyResult × Bool :=
  if writeOk then
    if applyOk then ({ success := true, message := "Theme applied to all sessions!" }, true)
    else ({ success := true, message := "Profile installed. Select from Profiles menu or restart iTerm2." }, true)
  else ({ success := false, message := "Failed to install profile." }, false)

/-! ## Windows Terminal installer (`applyToWindowsTerminal`, cli/index.ts) -/

/-- A color-scheme object of the settings document, as an ordered list of
key/value members (all members a scheme carries here are strings). -/
abbrev WTScheme := List (String × String)

/-- The parsed state of the settings document that the installer reads,
transforms and rewrites: its `schemes` array (`none` when the member is
absent) and the default profile's `colorScheme`.  Members of the document the
installer does not touch are not modelled. -/
structure WTSettings where
  schemes : Option (List WTScheme)
  defaultColorScheme : Option String
deriving DecidableEq, Repr

/-- `s.name` of a scheme object. -/
def wtSchemeName (s : WTScheme) : Option String := s.lookup "name"

/-- The `colorScheme` object literal the installer appends, in source order —
ANSI magenta and brightMagenta are written under the keys `purple` and
`brightPurple`. -/
def wtColorScheme (colors : ThemeColors) (themeName : String) : WTScheme :=
  [("name", themeName),
   ("background", colors.background),
   ("foreground", colors.foreground),
   ("cursorColor", colors.cursor),
   ("selectionBackground", colors.selection),
   ("black", colors.ansi.black),
   ("red", colors.ansi.red),
   ("green", colors.ansi.green),
   ("yellow", colors.ansi.yellow),
   ("blue", colors.ansi.blue),
   ("purple", colors.ansi.magenta),
   ("cyan", colors.ansi.cyan),
   ("white", colors.ansi.white),
   ("brightBlack", colors.ansi.brightBlack),
   ("brightRed", colors.ansi.brightRed),
   ("brightGreen", colors.ansi.brightGreen),
   ("brightYellow", colors.ansi.brightYellow),
   ("brightBlue", colors.ansi.brightBlue),
   ("brightPurple", colors.ansi.brightMagenta),
   ("brightCyan", colors.ansi.brightCyan),
   ("brightWhite", colors.ansi.brightWhite)]

/-- The document transformation of `applyToWindowsTerminal`: default the
`schemes` member to `[]` when absent, drop every existing scheme whose `name`
equals the theme name, append the new scheme, and point the default profile
at it.  (Reading, comment-stripping and the parse-failure fallback to an
empty document all happen before this transformation and yield some starting
`WTSettings`.) -/
def applyToWindowsTerminalDoc (colors : ThemeColors) (themeName : String)
    (s : WTSettings) : WTSettings :=
  let schemes0 := match s.schemes with | none => [] | some l => l
  { schemes := some ((schemes0.filter (fun sch => !(wtSchemeName sch == some themeName)))
      ++ [wtColorScheme colors themeName])
    defaultColorScheme := some themeName }

/-- The number of scheme entries carrying the given name. -/
def wtCountNamed (s : WTSettings) (themeName : String) : Nat :=
  (((match s.schemes with | none => [] | some l => l).filter
    (fun sch => wtSchemeName sch == some themeName))).length

/-! ## PowerShell profile installer (`applyToPowerShell`, cli/index.ts) -/

/-- The `psColorScript` template literal, byte for byte (it opens with a
newline and closes with one; `\x7b`/`\x7d` are the braces and `\x27` the
single quotes of the generated PowerShell). -/
def psColorScript (colors : ThemeColors) (themeName : String) : String :=
  "\n# ShellShade Theme: " ++
    themeName ++
    "\n# Generated by ShellShade - Terminal Theme Manager\n\n$Host.UI.RawUI.BackgroundColor = [System.ConsoleColor]::Black\n$Host.UI.RawUI.ForegroundColor = [System.ConsoleColor]::White\n\n# PSReadLine colors (if available)\nif (Get-Module -ListAvailable -Name PSReadLine) \x7b\n    Set-PSReadLineOption -Colors @\x7b\n        Command            = \x27" ++
    colors.ansi.yellow ++
    "\x27\n        Parameter          = \x27" ++
    colors.ansi.cyan ++
    "\x27\n        String             = \x27" ++
    colors.ansi.green ++
    "\x27\n        Comment            = \x27" ++
    colors.ansi.brightBlack ++
    "\x27\n        Keyword            = \x27" ++
    colors.ansi.magenta ++
    "\x27\n        Variable           = \x27" ++
    colors.ansi.blue ++
    "\x27\n        Operator           = \x27" ++
    colors.foreground ++
    "\x27\n        Number             = \x27" ++
    colors.ansi.red ++
    "\x27\n        Type               = \x27" ++
    colors.ansi.cyan ++
    "\x27\n        Member             = \x27" ++
    colors.ansi.yellow ++
    "\x27\n        Error              = \x27" ++
    colors.ansi.brightRed ++
    "\x27\n        Selection          = \x27" ++
    colors.selection ++
    "\x27\n    \x7d\n\x7d\n\n# Set console colors via registry (requires restart)\n$regPath = \"HKCU:\\Console\"\nif (Test-Path $regPath) \x7b\n    # Note: Console colors require hex values in specific format\n    Write-Host \"Theme \x27" ++
    themeName ++
    "\x27 applied to PSReadLine.\" -ForegroundColor Green\n    Write-Host \"For full color support, use Windows Terminal.\" -ForegroundColor Yellow\n\x7d\n"

/-- The fixed header text `# ShellShade Theme:` that anchors the removal
regex `/\n?# ShellShade Theme:[\s\S]*?(?=\n# (?!ShellShade)|$)/g`. -/
def ssHeaderChars : List Char := "# ShellShade Theme:".data

/-- Can the regex's lookahead `(?=\n# (?!ShellShade)|$)` succeed at this
position?  It succeeds at end of input, or before a `"\n# "` whose following
text does not begin with `ShellShade`. -/
def ssStopHere (cs : List Char) : Bool :=
  match cs with
  | [] => true
  | '\n' :: '#' :: ' ' :: rest => !(startsWithChars rest "ShellShade".data)
  | _ => false

/-- The lazy `[\s\S]*?` of the removal regex: advance to the first position
where the lookahead succeeds (it always succeeds at end of input) and return
the remainder of the input from there. -/
def ssDropLazy : List Char → List Char
  | [] => []
  | l@(_ :: t) => if ssStopHere l then l else ssDropLazy t

/-- `\n?# ShellShade Theme:` at this position (greedy optional newline, as
the engine tries it): the remainder after the matched prefix, or `none`. -/
def ssHeaderMatch (l : List Char) : Option (List Char) :=
  if startsWithChars l ('\n' :: ssHeaderChars) then some (l.drop (ssHeaderChars.length + 1))
  else if startsWithChars l ssHeaderChars then some (l.drop ssHeaderChars.length)
  else none

/-- `existingProfile.replace(shellshadeBlockRegex, '')`: left-to-right scan;
at a match, drop the matched span (header plus lazy tail up to the first
lookahead success) and continue after it, as the `g` flag does.  Fuel is the
input length; every step consumes at least one character, so it never runs
out. -/
def ssRemoveAux : Nat → List Char → List Char
  | 0, l => l
  | _ + 1, [] => []
  | fuel + 1, c :: t =>
    match ssHeaderMatch (c :: t) with
    | some rest => ssRemoveAux fuel (ssDropLazy rest)
    | none => c :: ssRemoveAux fuel t

/-- The block-removal pass of `applyToPowerShell`. -/
def ssRemoveBlocks (s : String) : String :=
  String.mk (ssRemoveAux s.data.length s.data)

/-- The profile-text transformation of `applyToPowerShell`:
`existingProfile.replace(shellshadeBlockRegex, '').trim() + '\n' + psColorScript`. -/
def applyToPowerShellProfile (colors : ThemeColors) (themeName existing : String) : String :=
  jsTrim (ssRemoveBlocks existing) ++ "\n" ++ psColorScript colors themeName

/-! ## Native canonical JSON shape (claim C4)

The repository's export path (`FILES_EXPORT` in `src/main/ipc/files.ts`)
declares the serializer but throws `Export not yet implemented`; only its
inverse, `parseJson`'s canonical branch, exists in the source. -/

/-- Modelled from the spec: `serializeCanonicalJson` — the FILES_EXPORT
serializer for the native canonical JSON shape is missing from the source
(the handler is an unimplemented stub), so the document it would produce is
taken from the spec's description of the shape (§4.2 (a), §8): a JSON object
carrying the theme's `name` and a nested `colors` object whose `ansi`
sub-object holds the 16 ANSI slots. -/
def serializeCanonicalJson (t : ParsedTheme) : Json :=
  .obj [("name", .str t.name),
        ("colors", .obj
          [("background", .str t.colors.background),
           ("foreground", .str t.colors.foreground),
           ("cursor", .str t.colors.cursor),
           ("cursorText", .str t.colors.cursorText),
           ("selection", .str t.colors.selection),
           ("selectionText", .str t.colors.selectionText),
           ("ansi", .obj
             [("black", .str t.colors.ansi.black),
              ("red", .str t.colors.ansi.red),
              ("green", .str t.colors.ansi.green),
              ("yellow", .str t.colors.ansi.yellow),
              ("blue", .str t.colors.ansi.blue),
              ("magenta", .str t.colors.ansi.magenta),
              ("cyan", .str t.colors.ansi.cyan),
              ("white", .str t.colors.ansi.white),
              ("brightBlack", .str t.colors.ansi.brightBlack),
              ("brightRed", .str t.colors.ansi.brightRed),
              ("brightGreen", .str t.colors.ansi.brightGreen),
              ("brightYellow", .str t.colors.ansi.brightYellow),
              ("brightBlue", .str t.colors.ansi.brightBlue),
              ("brightMagenta", .str t.colors.ansi.brightMagenta),
              ("brightCyan", .str t.colors.ansi.brightCyan),
              ("brightWhite", .str t.colors.ansi.brightWhite)])])]

/-- A serialized theme written to `<path>` and read back: `JSON.stringify`
followed by `JSON.parse` is the identity on the document, so the parser
receives exactly the serialized value. -/
def roundTripInput (t : ParsedTheme) (path : String) : FileInput :=
  { path := path, content := "", plist := none, json := some (serializeCanonicalJson t) }

/-- All 22 color slots satisfy the spec's `isValidHexColor`. -/
def allValidHex (tc : ThemeColors) : Bool :=
  isValidHexColor tc.background && isValidHexColor tc.foreground &&
  isValidHexColor tc.cursor && isValidHexColor tc.cursorText &&
  isValidHexColor tc.selection && isValidHexColor tc.selectionText &&
  isValidHexColor tc.ansi.black && isValidHexColor tc.ansi.red &&
  isValidHexColor tc.ansi.green && isValidHexColor tc.ansi.yellow &&
  isValidHexColor tc.ansi.blue && isValidHexColor tc.ansi.magenta &&
  isValidHexColor tc.ansi.cyan && isValidHexColor tc.ansi.white &&
  isValidHexColor tc.ansi.brightBlack && isValidHexColor tc.ansi.brightRed &&
  isValidHexColor tc.ansi.brightGreen && isValidHexColor tc.ansi.brightYellow &&
  isValidHexColor tc.ansi.brightBlue && isValidHexColor tc.ansi.brightMagenta &&
  isValidHexColor tc.ansi.brightCyan && isValidHexColor tc.ansi.brightWhite

/-! ## Shared lemmas -/

theorem data_append (a b : String) : (a ++ b).data = a.data ++ b.data := by
  cases a; cases b; rfl

theorem isHexDigit_of_lower {c : Char} (h : isLowerHexDigit c = true) : isHexDigit c = true := by
  simp only [isLowerHexDigit, isHexDigit, Bool.or_eq_true, Bool.and_eq_true,
    decide_eq_true_eq] at h ⊢
  tauto

/-- Any floor fact stated as a two-sided bound, for evaluating `Math.round`
at concrete rationals. -/
theorem jsRound_eq (q : ℚ) (n : ℤ) (h1 : (n:ℚ) ≤ q + 1/2) (h2 : q + 1/2 < n + 1) :
    jsRound q = n := by
  unfold jsRound
  rw [Int.floor_eq_iff]
  refine ⟨h1, ?_⟩
  rw [show ((n : ℚ) + 1) = ((n + 1 : ℤ) : ℚ) by push_cast; ring] at h2
  exact_mod_cast h2

/-- Evaluate one `Math.round((c || 0) * 255).toString(16).padStart(2,'0')`
pipeline at a known component value. -/
theorem itermComponentHex_eval (d : Json) (k : String) (q : ℚ) (n : ℤ)
    (hq : itermComp d k = q) (h1 : (n:ℚ) ≤ q * 255 + 1/2) (h2 : q * 255 + 1/2 < n + 1) :
    itermComponentHex d k = padStart2 (jsHexString n) := by
  unfold itermComponentHex
  rw [hq, jsRound_eq (q * 255) n h1 h2]

set_option maxRecDepth 10000 in
/-- Every natural below 256 renders as two lowercase hex digits after the
pad (checked exhaustively). -/
theorem byteHexTwo : ∀ m : Nat, m < 256 →
    isTwoLowerHex (padStart2 (String.mk (Nat.toDigits 16 m))) = true := by decide

theorem intByteHexTwo (n : ℤ) (h0 : 0 ≤ n) (h1 : n ≤ 255) :
    isTwoLowerHex (padStart2 (jsHexString n)) = true := by
  unfold jsHexString
  rw [if_neg (by omega)]
  exact byteHexTwo n.toNat (by omega)

theorem jsRound_byte_bounds (q : ℚ) (h0 : 0 ≤ q) (h1 : q ≤ 1) :
    0 ≤ jsRound (q * 255) ∧ jsRound (q * 255) ≤ 255 := by
  unfold jsRound
  constructor
  · exact Int.le_floor.mpr (by push_cast; linarith)
  · have : ⌊q * 255 + 1/2⌋ < 256 := by
      rw [Int.floor_lt]; push_cast; linarith
    omega

theorem isLowerHexColor_cat (a b c : String)
    (ha : isTwoLowerHex a = true) (hb : isTwoLowerHex b = true)
    (hc : isTwoLowerHex c = true) :
    isLowerHexColor ("#" ++ a ++ b ++ c) = true := by
  have h₁ : ("#" ++ a ++ b ++ c).data = '#' :: (a.data ++ (b.data ++ c.data)) := by
    simp [data_append]
  simp only [isTwoLowerHex, Bool.and_eq_true, decide_eq_true_eq] at ha hb hc
  simp only [isLowerHexColor, h₁]
  simp [startsWithChars, List.all_append, ha.1, ha.2, hb.1, hb.2, hc.1, hc.2]

theorem isValidHexColor_of_lower {s : String} (h : isLowerHexColor s = true) :
    isValidHexColor s = true := by
  simp only [isLowerHexColor, isValidHexColor, Bool.and_eq_true, decide_eq_true_eq,
    List.all_eq_true] at h ⊢
  exact ⟨h.1, fun c hc => isHexDigit_of_lower (h.2 c hc)⟩

/-! ## Claim C1 -/

/-- The color dictionary of the claim's boundary input: `Red Component` is
1.2 (out of `[0,1]`), the other components absent. -/
def c1BoundaryDict : Json := .obj [("Red Component", .num (6/5))]

/-- A property-list document holding the boundary dictionary. -/
def c1BoundaryDoc : Json := .obj [("Background Color", c1BoundaryDict)]

/-- Claim C1, counterexample: the parser does NOT clamp.  On a dictionary
with `Red Component` 1.2 it computes `Math.round(1.2*255) = 306`, renders it
as the three hex digits `132`, and produces the 8-character string
`"#1320000"` — not byte value 255, and not a valid `#rrggbb` string. -/
theorem spec_c1_counterexample :
    (itermColorsFromDoc c1BoundaryDoc).background = "#1320000" ∧
    jsRound ((6/5 : ℚ) * 255) = 306 ∧
    isValidHexColor "#1320000" = false ∧
    ("#1320000" : String).length ≠ 7 := by
  have hr : itermComponentHex c1BoundaryDict "Red Component" = padStart2 (jsHexString 306) :=
    itermComponentHex_eval _ _ (6/5) 306 rfl (by norm_num) (by norm_num)
  have hg : itermComponentHex c1BoundaryDict "Green Component" = padStart2 (jsHexString 0) :=
    itermComponentHex_eval _ _ 0 0 rfl (by norm_num) (by norm_num)
  have hb : itermComponentHex c1BoundaryDict "Blue Component" = padStart2 (jsHexString 0) :=
    itermComponentHex_eval _ _ 0 0 rfl (by norm_num) (by norm_num)
  refine ⟨?_, jsRound_eq _ _ (by norm_num) (by norm_num), by decide, by decide⟩
  show itermGetColor c1BoundaryDoc "Background Color" = "#1320000"
  have hgc : itermGetColor c1BoundaryDoc "Background Color" =
      "#" ++ itermComponentHex c1BoundaryDict "Red Component"
        ++ itermComponentHex c1BoundaryDict "Green Component"
        ++ itermComponentHex c1BoundaryDict "Blue Component" := rfl
  rw [hgc, hr, hg, hb]
  rfl

/-- Claim C1 as amended: no clamping is applied, but for components within
`[0,1]` the conversion `round(c*255)` lands in `[0,255]` by itself and is
rendered as exactly two lowercase hex digits, so every present color entry
whose three components lie in `[0,1]` yields a valid 7-character lowercase
`#rrggbb` string.  (An out-of-range component such as 1.2 is not clamped:
see the counterexample.) -/
theorem spec_c1_theorem (doc d : Json) (key : String)
    (hk : jget doc key = some d) (ht : jsTruthy d = true)
    (hr0 : 0 ≤ itermComp d "Red Component") (hr1 : itermComp d "Red Component" ≤ 1)
    (hg0 : 0 ≤ itermComp d "Green Component") (hg1 : itermComp d "Green Component" ≤ 1)
    (hb0 : 0 ≤ itermComp d "Blue Component") (hb1 : itermComp d "Blue Component" ≤ 1) :
    isLowerHexColor (itermGetColor doc key) = true ∧
    isValidHexColor (itermGetColor doc key) = true := by
  have hg : itermGetColor doc key =
      "#" ++ itermComponentHex d "Red Component" ++ itermComponentHex d "Green Component"
        ++ itermComponentHex d "Blue Component" := by
    simp [itermGetColor, hk, ht]
  have two : ∀ k : String, 0 ≤ itermComp d k → itermComp d k ≤ 1 →
      isTwoLowerHex (itermComponentHex d k) = true := by
    intro k h0 h1
    have hb := jsRound_byte_bounds (itermComp d k) h0 h1
    exact intByteHexTwo _ hb.1 hb.2
  have hl : isLowerHexColor (itermGetColor doc key) = true := by
    rw [hg]
    exact isLowerHexColor_cat _ _ _ (two _ hr0 hr1) (two _ hg0 hg1) (two _ hb0 hb1)
  exact ⟨hl, isValidHexColor_of_lower hl⟩

/-- The in-range dictionary used by the C1 witness: components 0.5, 0, 1. -/
def c1WitnessDict : Json :=
  .obj [("Red Component", .num (1/2)), ("Green Component", .num 0), ("Blue Component", .num 1)]

/-- A property-list document holding the witness dictionary. -/
def c1WitnessDoc : Json := .obj [("Background Color", c1WitnessDict)]

/-- Claim C1, witness: the amended theorem applied to the concrete in-range
dictionary (which renders as `"#8000ff"`). -/
theorem spec_c1_witness :
    isLowerHexColor (itermGetColor c1WitnessDoc "Background Color") = true ∧
    isValidHexColor (itermGetColor c1WitnessDoc "Background Color") = true :=
  spec_c1_theorem c1WitnessDoc c1WitnessDict "Background Color" rfl rfl
    (by rw [show itermComp c1WitnessDict "Red Component" = 1/2 from rfl]; norm_num)
    (by rw [show itermComp c1WitnessDict "Red Component" = 1/2 from rfl]; norm_num)
    (by rw [show itermComp c1WitnessDict "Green Component" = 0 from rfl])
    (by rw [show itermComp c1WitnessDict "Green Component" = 0 from rfl]; norm_num)
    (by rw [show itermComp c1WitnessDict "Blue Component" = 1 from rfl]; norm_num)
    (by rw [show itermComp c1WitnessDict "Blue Component" = 1 from rfl])

/-! ## Claim C2 -/

/-- A fully-saturated white color dictionary. -/
def c2WhiteDict : Json :=
  .obj [("Red Component", .num 1), ("Green Component", .num 1), ("Blue Component", .num 1)]

/-- A pure red color dictionary. -/
def c2RedDict : Json :=
  .obj [("Red Component", .num 1), ("Green Component", .num 0), ("Blue Component", .num 0)]

/-- The failing input for C2: white background, red foreground, and neither a
`Cursor Text Color` nor a `Selected Text Color` entry. -/
def c2Doc : Json :=
  .obj [("Background Color", c2WhiteDict), ("Foreground Color", c2RedDict)]

/-- Claim C2 evaluated at the failing input: with no `Cursor Text Color`
entry the parser's `getColor` returns its absent-key default `"#000000"`,
which is a truthy string, so the `|| getColor('Background Color')` fallback
never fires; `cursorText` therefore is `"#000000"` rather than the parsed
background (`"#ffffff"`), and likewise `selectionText` is `"#000000"` rather
than the parsed foreground (`"#ff0000"`).  The claim (and the dead fallback
in the source itself) says they should equal background and foreground. -/
theorem spec_c2_theorem :
    (itermColorsFromDoc c2Doc).background = "#ffffff" ∧
    (itermColorsFromDoc c2Doc).foreground = "#ff0000" ∧
    (itermColorsFromDoc c2Doc).cursorText = "#000000" ∧
    (itermColorsFromDoc c2Doc).selectionText = "#000000" ∧
    (itermColorsFromDoc c2Doc).cursorText ≠ (itermColorsFromDoc c2Doc).background ∧
    (itermColorsFromDoc c2Doc).selectionText ≠ (itermColorsFromDoc c2Doc).foreground := by
  have h255 : ∀ d k, itermComp d k = 1 → itermComponentHex d k = padStart2 (jsHexString 255) :=
    fun d k hq => itermComponentHex_eval d k 1 255 hq (by norm_num) (by norm_num)
  have h0 : ∀ d k, itermComp d k = 0 → itermComponentHex d k = padStart2 (jsHexString 0) :=
    fun d k hq => itermComponentHex_eval d k 0 0 hq (by norm_num) (by norm_num)
  have hbg : itermGetColor c2Doc "Background Color" = "#ffffff" := by
    have : itermGetColor c2Doc "Background Color" =
        "#" ++ itermComponentHex c2WhiteDict "Red Component"
          ++ itermComponentHex c2WhiteDict "Green Component"
          ++ itermComponentHex c2WhiteDict "Blue Component" := rfl
    rw [this, h255 c2WhiteDict "Red Component" rfl, h255 c2WhiteDict "Green Component" rfl,
      h255 c2WhiteDict "Blue Component" rfl]
    rfl
  have hfg : itermGetColor c2Doc "Foreground Color" = "#ff0000" := by
    have : itermGetColor c2Doc "Foreground Color" =
        "#" ++ itermComponentHex c2RedDict "Red Component"
          ++ itermComponentHex c2RedDict "Green Component"
          ++ itermComponentHex c2RedDict "Blue Component" := rfl
    rw [this, h255 c2RedDict "Red Component" rfl, h0 c2RedDict "Green Component" rfl,
      h0 c2RedDict "Blue Component" rfl]
    rfl
  have hct : itermGetColor c2Doc "Cursor Text Color" = "#000000" := rfl
  have hst : itermGetColor c2Doc "Selected Text Color" = "#000000" := rfl
  have e1 : (itermColorsFromDoc c2Doc).background = "#ffffff" := hbg
  have e2 : (itermColorsFromDoc c2Doc).foreground = "#ff0000" := hfg
  have e3 : (itermColorsFromDoc c2Doc).cursorText = "#000000" := by
    show jsStrOr (itermGetColor c2Doc "Cursor Text Color")
      (itermGetColor c2Doc "Background Color") = "#000000"
    rw [hct]; rfl
  have e4 : (itermColorsFromDoc c2Doc).selectionText = "#000000" := by
    show jsStrOr (itermGetColor c2Doc "Selected Text Color")
      (itermGetColor c2Doc "Foreground Color") = "#000000"
    rw [hst]; rfl
  refine ⟨e1, e2, e3, e4, ?_, ?_⟩
  · rw [e3, e1]; decide
  · rw [e4, e2]; decide

/-! ## Claim C3 -/

/-- The concrete theme colors used to exercise the PowerShell installer
(the Tokyo Night palette). -/
def c3Colors : ThemeColors :=
  { background := "#1a1b26", foreground := "#c0caf5", cursor := "#c0caf5",
    cursorText := "#1a1b26", selection := "#33467c", selectionText := "#c0caf5",
    ansi := { black := "#15161e", red := "#f7768e", green := "#9ece6a", yellow := "#e0af68",
              blue := "#7aa2f7", magenta := "#bb9af7", cyan := "#7dcfff", white := "#a9b1d6",
              brightBlack := "#414868", brightRed := "#f7768e", brightGreen := "#9ece6a",
              brightYellow := "#e0af68", brightBlue := "#7aa2f7", brightMagenta := "#bb9af7",
              brightCyan := "#7dcfff", brightWhite := "#c0caf5" } }

set_option maxRecDepth 100000 in
/-- Claim C3 evaluated at a failing input: applying the PowerShell installer
twice to an initially empty profile does not equal applying it once.  The
removal regex's lookahead `(?=\n# (?!ShellShade)|$)` already succeeds at the
block's own second line `# Generated by ShellShade - Terminal Theme Manager`
(whose text after `# ` starts with `Generated`, not `ShellShade`), so the
lazy match strips only the 32-character header line `\n# ShellShade Theme:
Tokyo Night` and leaves the remaining 1120 characters of the old block in
place; the profile grows by the leftover on every reapplication (1152 chars
after one application, 2269 after two) instead of being idempotent. -/
theorem spec_c3_theorem :
    applyToPowerShellProfile c3Colors "Tokyo Night"
        (applyToPowerShellProfile c3Colors "Tokyo Night" "") ≠
      applyToPowerShellProfile c3Colors "Tokyo Night" "" ∧
    (applyToPowerShellProfile c3Colors "Tokyo Night" "").length = 1152 ∧
    (applyToPowerShellProfile c3Colors "Tokyo Night"
      (applyToPowerShellProfile c3Colors "Tokyo Night" "")).length = 2269 ∧
    (ssRemoveBlocks (applyToPowerShellProfile c3Colors "Tokyo Night" "")).length = 1120 := by
  have l1 : (applyToPowerShellProfile c3Colors "Tokyo Night" "").length = 1152 := by decide
  have l2 : (applyToPowerShellProfile c3Colors "Tokyo Night"
      (applyToPowerShellProfile c3Colors "Tokyo Night" "")).length = 2269 := by decide
  have l3 : (ssRemoveBlocks (applyToPowerShellProfile c3Colors "Tokyo Night" "")).length = 1120 := by
    decide
  refine ⟨fun h => ?_, l1, l2, l3⟩
  rw [h, l1] at l2
  omega

/-! ## Claim C4 -/

/-- Parsing back a serialized theme evaluates to the canonical branch with
the document's `name` put through JavaScript's `||` and the colors read back
field by field (definitional). -/
theorem parseJson_serialize_eval (t : ParsedTheme) (p : String) :
    parseJson (roundTripInput t p) =
      .ok { name := jsNameOr (some (.str t.name)) (basenameStrip p ".json")
            colors := t.colors } := rfl

/-- The counterexample theme for C4: all 22 colors valid hex, empty name. -/
def c4NoNameTheme : ParsedTheme :=
  { name := ""
    colors :=
    { background := "#1a1b26", foreground := "#c0caf5", cursor := "#c0caf5",
      cursorText := "#1a1b26", selection := "#33467c", selectionText := "#c0caf5",
      ansi := { black := "#15161e", red := "#f7768e", green := "#9ece6a", yellow := "#e0af68",
                blue := "#7aa2f7", magenta := "#bb9af7", cyan := "#7dcfff", white := "#a9b1d6",
                brightBlack := "#414868", brightRed := "#f7768e", brightGreen := "#9ece6a",
                brightYellow := "#e0af68", brightBlue := "#7aa2f7", brightMagenta := "#bb9af7",
                brightCyan := "#7dcfff", brightWhite := "#c0caf5" } } }

/-- Claim C4, counterexample: a CanonicalTheme whose 22 color fields are all
valid hex strings but whose name is empty does not round-trip.  The parser's
`data.name || name` treats the serialized empty name as falsy and substitutes
the file's basename, so the parsed theme differs from the original. -/
theorem spec_c4_counterexample :
    allValidHex c4NoNameTheme.colors = true ∧
    parseJson (roundTripInput c4NoNameTheme "theme.json") =
      .ok { name := "theme", colors := c4NoNameTheme.colors } ∧
    ({ name := "theme", colors := c4NoNameTheme.colors } : ParsedTheme) ≠ c4NoNameTheme := by
  refine ⟨by decide, rfl, by decide⟩

/-- Claim C4 as amended: for every CanonicalTheme whose 22 color fields are
valid hex strings AND whose name is non-empty, serializing to the native
canonical JSON shape and parsing back is the identity; with an empty name the
colors still round-trip but the name is replaced by the file's basename (see
the counterexample). -/
theorem spec_c4_theorem (t : ParsedTheme) (p : String)
    (hname : t.name ≠ "") (_hvalid : allValidHex t.colors = true) :
    parseJson (roundTripInput t p) = .ok t := by
  rw [parseJson_serialize_eval t p]
  have h : jsNameOr (some (.str t.name)) (basenameStrip p ".json") =
      if t.name = "" then basenameStrip p ".json" else t.name := rfl
  rw [h, if_neg hname]

/-- The witness theme for C4: all colors valid, non-empty name. -/
def c4Theme : ParsedTheme :=
  { name := "Tokyo Night"
    colors :=
    { background := "#1a1b26", foreground := "#c0caf5", cursor := "#c0caf5",
      cursorText := "#1a1b26", selection := "#33467c", selectionText := "#c0caf5",
      ansi := { black := "#15161e", red := "#f7768e", green := "#9ece6a", yellow := "#e0af68",
                blue := "#7aa2f7", magenta := "#bb9af7", cyan := "#7dcfff", white := "#a9b1d6",
                brightBlack := "#414868", brightRed := "#f7768e", brightGreen := "#9ece6a",
                brightYellow := "#e0af68", brightBlue := "#7aa2f7", brightMagenta := "#bb9af7",
                brightCyan := "#7dcfff", brightWhite := "#c0caf5" } } }

/-- Claim C4, witness: the amended round-trip theorem applied to a concrete
valid theme. -/
theorem spec_c4_witness :
    parseJson (roundTripInput c4Theme "tokyo.json") = .ok c4Theme :=
  spec_c4_theorem c4Theme "tokyo.json" (by decide) (by decide)

/-! ## Claim C5 -/

theorem filter_not_filter {α} (q : α → Bool) (l : List α) :
    (l.filter (fun a => !(q a))).filter q = [] := by
  induction l with
  | nil => rfl
  | cons x t ih => cases hq : q x <;> simp [List.filter_cons, hq, ih]

/-- The scheme object the installer appends answers its own name. -/
theorem wtColorScheme_name (colors : ThemeColors) (themeName : String) :
    wtSchemeName (wtColorScheme colors themeName) = some themeName := rfl

/-- One install leaves exactly one scheme with the installed name. -/
theorem wtCountNamed_apply (colors : ThemeColors) (themeName : String) (s : WTSettings) :
    wtCountNamed (applyToWindowsTerminalDoc colors themeName s) themeName = 1 := by
  unfold wtCountNamed applyToWindowsTerminalDoc
  simp [List.filter_append, filter_not_filter, List.filter_cons, wtColorScheme_name]

/-- Claim C5: starting from any settings document, installing twice with the
same theme name leaves exactly one scheme entry with that name (each install
first drops all same-named schemes, then appends one); and the appended
scheme writes ANSI magenta and brightMagenta under the keys `purple` and
`brightPurple`. -/
theorem spec_c5_theorem (colors : ThemeColors) (themeName : String) (s : WTSettings) :
    wtCountNamed (applyToWindowsTerminalDoc colors themeName
      (applyToWindowsTerminalDoc colors themeName s)) themeName = 1 ∧
    wtCountNamed (applyToWindowsTerminalDoc colors themeName s) themeName = 1 ∧
    (wtColorScheme colors themeName).lookup "purple" = some colors.ansi.magenta ∧
    (wtColorScheme colors themeName).lookup "brightPurple" = some colors.ansi.brightMagenta :=
  ⟨wtCountNamed_apply colors themeName _, wtCountNamed_apply colors themeName s, rfl, rfl⟩

/-! ## Claim C6 -/

theorem append_ne_empty_left (a b : String) (h : a ≠ "") : a ++ b ≠ "" := by
  intro hc
  apply h
  have hd := congrArg String.data hc
  rw [data_append] at hd
  rcases List.append_eq_nil.mp hd with ⟨h1, _⟩
  cases a
  exact congrArg String.mk h1

/-- Claim C6: in both iTerm2 installers, when the profile write succeeds and
the OS-scripting live-apply fails the result is `success:true` with non-empty
manual instructions and the written file stays on disk; `success:false`
(always carrying an error) arises exactly when the file write itself fails. -/
theorem spec_c6_theorem (c : ThemeColors) (themeName home werr : String)
    (writeOk applyOk : Bool) :
    (writeOk = true → applyOk = false →
      (installToIterm2 (some c) themeName home werr writeOk applyOk).1.success = true ∧
      (∃ m, (installToIterm2 (some c) themeName home werr writeOk applyOk).1.instructions = some m ∧
        m ≠ "") ∧
      (installToIterm2 (some c) themeName home werr writeOk applyOk).2 = true) ∧
    ((installToIterm2 (some c) themeName home werr writeOk applyOk).1.success = false ↔
      writeOk = false) ∧
    ((installToIterm2 (some c) themeName home werr writeOk applyOk).1.success = false →
      (installToIterm2 (some c) themeName home werr writeOk applyOk).1.error ≠ none) ∧
    ((applyToIterm2 c themeName writeOk applyOk).1.success = false ↔ writeOk = false) ∧
    (writeOk = true → applyOk = false →
      (applyToIterm2 c themeName writeOk applyOk).1.message ≠ "" ∧
      (applyToIterm2 c themeName writeOk applyOk).2 = true) := by
  cases writeOk <;> cases applyOk <;>
    simp only [installToIterm2, applyToIterm2, if_true, if_false, Bool.false_eq_true,
      reduceIte] <;>
    refine ⟨?_, ?_, ?_, ?_, ?_⟩ <;>
    simp_all
  exact append_ne_empty_left _ _ (append_ne_empty_left _ _ (by decide))

/-- The concrete colors used by the C6 witness. -/
def c6Colors : ThemeColors :=
  { background := "#282a36", foreground := "#f8f8f2", cursor := "#f8f8f2",
    cursorText := "#282a36", selection := "#44475a", selectionText := "#f8f8f2",
    ansi := { black := "#21222c", red := "#ff5555", green := "#50fa7b", yellow := "#f1fa8c",
              blue := "#bd93f9", magenta := "#ff79c6", cyan := "#8be9fd", white := "#f8f8f2",
              brightBlack := "#6272a4", brightRed := "#ff6e6e", brightGreen := "#69ff94",
              brightYellow := "#ffffa5", brightBlue := "#d6acff", brightMagenta := "#ff92df",
              brightCyan := "#a4ffff", brightWhite := "#ffffff" } }

/-- Claim C6, witness: the theorem at a successful write with a failed
live-apply. -/
theorem spec_c6_witness :
    (installToIterm2 (some c6Colors) "Dracula" "/Users/sam" "EACCES" true false).1.success = true ∧
    (∃ m, (installToIterm2 (some c6Colors) "Dracula" "/Users/sam" "EACCES" true false).1.instructions =
      some m ∧ m ≠ "") ∧
    (installToIterm2 (some c6Colors) "Dracula" "/Users/sam" "EACCES" true false).2 = true :=
  (spec_c6_theorem c6Colors "Dracula" "/Users/sam" "EACCES" true false).1 rfl rfl

/-! ## Claim C7 -/

/-- `colors[key] || fallback` is non-empty whenever the fallback is: a stored
empty string is falsy and falls back, any other stored string is non-empty. -/
theorem getColorM_ne_empty (m : String → Option String) (k fb : String) (h : fb ≠ "") :
    getColorM m k fb ≠ "" := by
  cases hm : m k with
  | none => simp [getColorM, hm, h]
  | some v =>
    by_cases hv : v = ""
    · simp [getColorM, hm, hv, h]
    · simp [getColorM, hm, hv]

/-- Claim C7: for every input text, both the Kitty and the Alacritty parsers
populate all 22 canonical slots (every slot is drawn from the file map or a
non-empty hard-coded fallback); and on the two-line conf input of Scenario B
the foreground is the hard-coded fallback `"#c5c8c6"`, `ansi.red` is the
file's `"#f7768e"`, and `ansi.black` is its fallback `"#1d1f21"`. -/
theorem spec_c7_theorem :
    (∀ content : String, allPopulated (kittyColorsOf content)) ∧
    (∀ content : String, allPopulated (alacrittyColorsOf content)) ∧
    (kittyColorsOf "background #1a1b26\ncolor1 #f7768e").foreground = "#c5c8c6" ∧
    (kittyColorsOf "background #1a1b26\ncolor1 #f7768e").background = "#1a1b26" ∧
    (kittyColorsOf "background #1a1b26\ncolor1 #f7768e").ansi.red = "#f7768e" ∧
    (kittyColorsOf "background #1a1b26\ncolor1 #f7768e").ansi.black = "#1d1f21" := by
  refine ⟨?_, ?_, by decide, by decide, by decide, by decide⟩ <;>
  · intro content
    refine ⟨?_, ?_, ?_, ?_, ?_, ?_, ?_, ?_, ?_, ?_, ?_, ?_, ?_, ?_, ?_, ?_, ?_, ?_, ?_, ?_,
      ?_, ?_⟩ <;>
    first
      | exact getColorM_ne_empty _ _ _ (by decide)
      | exact getColorM_ne_empty _ _ _ (getColorM_ne_empty _ _ _ (by decide))

/-! ## Claim C8 -/

set_option maxRecDepth 4000 in
/-- Claim C8: for every file whose (case-insensitively lowered) extension is
`.terminal`, the dispatcher fails with the fixed unsupported-format error —
the result is a constant, independent of the file's contents and of both
external conversions, so no bytes are read and no other parser is attempted —
and the error's detail names the suggested `.itermcolors` import path. -/
theorem spec_c8_theorem (f : FileInput) (h : toLowerStr (extname f.path) = ".terminal") :
    parseThemeFile f = .error terminalAppUnsupportedMsg ∧
    (∃ a b : String, terminalAppUnsupportedMsg = a ++ (".itermcolors" ++ b)) := by
  constructor
  · simp [parseThemeFile, h, parseTerminalApp]
  · exact ⟨"Terminal.app (.terminal) format uses NSKeyedArchiver which requires native parsing. Please export your theme from iTerm2 as ",
      " instead, or use a different format.", by decide⟩

/-- Claim C8, witness: a `.TERMINAL` file full of garbage bytes, with both
external conversions also present, still maps to the constant error. -/
def c8WitnessInput : FileInput :=
  { path := "Solarized.TERMINAL", content := "garbage-bytes",
    plist := some (.obj []), json := some (.obj []) }

theorem spec_c8_witness :
    parseThemeFile c8WitnessInput = .error terminalAppUnsupportedMsg ∧
    (∃ a b : String, terminalAppUnsupportedMsg = a ++ (".itermcolors" ++ b)) :=
  spec_c8_theorem c8WitnessInput (by decide)

/-! ## Claim C9 -/

/-- Claim C9: the dispatcher compares the lowercased extension, routes each
recognized extension (in either letter case) to exactly one parser, and fails
on every other extension with the unsupported-format error, invoking no
parser. -/
theorem spec_c9_theorem (f : FileInput) :
    (toLowerStr (extname f.path) = ".itermcolors" → parseThemeFile f = parseItermColors f) ∧
    (toLowerStr (extname f.path) = ".terminal" → parseThemeFile f = parseTerminalApp f) ∧
    (toLowerStr (extname f.path) = ".yaml" → parseThemeFile f = parseAlacritty f) ∧
    (toLowerStr (extname f.path) = ".yml" → parseThemeFile f = parseAlacritty f) ∧
    (toLowerStr (extname f.path) = ".json" → parseThemeFile f = parseJson f) ∧
    (toLowerStr (extname f.path) = ".conf" → parseThemeFile f = parseKitty f) ∧
    (toLowerStr (extname f.path) ∉
        ([".itermcolors", ".terminal", ".yaml", ".yml", ".json", ".conf"] : List String) →
      parseThemeFile f = .error ("Unsupported file format: " ++ toLowerStr (extname f.path))) := by
  refine ⟨fun h => by simp [parseThemeFile, h], fun h => by simp [parseThemeFile, h],
    fun h => by simp [parseThemeFile, h], fun h => by simp [parseThemeFile, h],
    fun h => by simp [parseThemeFile, h], fun h => by simp [parseThemeFile, h], fun h => ?_⟩
  simp only [List.mem_cons, List.not_mem_nil, or_false, not_or] at h
  obtain ⟨h1, h2, h3, h4, h5, h6⟩ := h
  simp [parseThemeFile, h1, h2, h3, h4, h5, h6]

/-- Claim C9, witness: an uppercase `.YML` file routes to the Alacritty
parser, and a `.doc` file fails without any parser being invoked. -/
theorem spec_c9_witness :
    parseThemeFile { path := "Theme.YML", content := "", plist := none, json := none } =
      parseAlacritty { path := "Theme.YML", content := "", plist := none, json := none } ∧
    parseThemeFile { path := "notes.doc", content := "", plist := none, json := none } =
      .error "Unsupported file format: .doc" :=
  ⟨(spec_c9_theorem _).2.2.2.1 (by decide),
   (spec_c9_theorem _).2.2.2.2.2.2 (by decide)⟩

/-! ## Claim C10 -/

theorem orDefault_ne_empty (o : Option String) (d : String) (h : d ≠ "") :
    orDefault o d ≠ "" := by
  cases o with
  | none => simpa [orDefault] using h
  | some v =>
    by_cases hv : v = ""
    · simp [orDefault, hv, h]
    · simp [orDefault, hv]

/-- Claim C10: the store lookup both installers use returns `null` exactly
when the store holds zero color rows for the theme; with at least one row all
22 slots of the result are populated, and each slot whose key is absent from
the row map is silently the fixed built-in default for that slot; the CLI's
duplicate of the lookup computes the identical function. -/
theorem spec_c10_theorem (rows : List (String × String)) :
    (getThemeColors rows = none ↔ rows = []) ∧
    getFullThemeColors rows = getThemeColors rows ∧
    (∀ tc, getThemeColors rows = some tc → allPopulated tc) ∧
    (∀ tc, getThemeColors rows = some tc →
      (jsMapGet rows "background" = none → tc.background = "#000000") ∧
      (jsMapGet rows "foreground" = none → tc.foreground = "#ffffff") ∧
      (jsMapGet rows "cursor" = none → tc.cursor = "#ffffff") ∧
      (jsMapGet rows "cursorText" = none → tc.cursorText = "#000000") ∧
      (jsMapGet rows "selection" = none → tc.selection = "#444444") ∧
      (jsMapGet rows "selectionText" = none → tc.selectionText = "#ffffff") ∧
      (jsMapGet rows "ansi_black" = none → tc.ansi.black = "#000000") ∧
      (jsMapGet rows "ansi_red" = none → tc.ansi.red = "#ff0000") ∧
      (jsMapGet rows "ansi_green" = none → tc.ansi.green = "#00ff00") ∧
      (jsMapGet rows "ansi_yellow" = none → tc.ansi.yellow = "#ffff00") ∧
      (jsMapGet rows "ansi_blue" = none → tc.ansi.blue = "#0000ff") ∧
      (jsMapGet rows "ansi_magenta" = none → tc.ansi.magenta = "#ff00ff") ∧
      (jsMapGet rows "ansi_cyan" = none → tc.ansi.cyan = "#00ffff") ∧
      (jsMapGet rows "ansi_white" = none → tc.ansi.white = "#ffffff") ∧
      (jsMapGet rows "ansi_brightBlack" = none → tc.ansi.brightBlack = "#666666") ∧
      (jsMapGet rows "ansi_brightRed" = none → tc.ansi.brightRed = "#ff6666") ∧
      (jsMapGet rows "ansi_brightGreen" = none → tc.ansi.brightGreen = "#66ff66") ∧
      (jsMapGet rows "ansi_brightYellow" = none → tc.ansi.brightYellow = "#ffff66") ∧
      (jsMapGet rows "ansi_brightBlue" = none → tc.ansi.brightBlue = "#6666ff") ∧
      (jsMapGet rows "ansi_brightMagenta" = none → tc.ansi.brightMagenta = "#ff66ff") ∧
      (jsMapGet rows "ansi_brightCyan" = none → tc.ansi.brightCyan = "#66ffff") ∧
      (jsMapGet rows "ansi_brightWhite" = none → tc.ansi.brightWhite = "#ffffff")) := by
  refine ⟨?_, rfl, ?_, ?_⟩
  · cases rows <;> simp [getThemeColors]
  · intro tc h
    by_cases hr : rows.length = 0
    · simp [getThemeColors, hr] at h
    · unfold getThemeColors at h
      rw [if_neg hr] at h
      obtain rfl := Option.some.inj h
      refine ⟨?_, ?_, ?_, ?_, ?_, ?_, ?_, ?_, ?_, ?_, ?_, ?_, ?_, ?_, ?_, ?_, ?_, ?_, ?_, ?_,
        ?_, ?_⟩ <;>
      exact orDefault_ne_empty _ _ (by decide)
  · intro tc h
    by_cases hr : rows.length = 0
    · simp [getThemeColors, hr] at h
    · unfold getThemeColors at h
      rw [if_neg hr] at h
      obtain rfl := Option.some.inj h
      refine ⟨?_, ?_, ?_, ?_, ?_, ?_, ?_, ?_, ?_, ?_, ?_, ?_, ?_, ?_, ?_, ?_, ?_, ?_, ?_, ?_,
        ?_, ?_⟩ <;>
      · intro hn
        simp [hn, orDefault]

/-- The single-row store used by the C10 witness. -/
def c10Rows : List (String × String) := [("background", "#123456")]

/-- The colors the lookup returns for the single-row store: the stored
background plus the 21 built-in defaults. -/
def c10WitnessColors : ThemeColors :=
  { background := "#123456", foreground := "#ffffff", cursor := "#ffffff",
    cursorText := "#000000", selection := "#444444", selectionText := "#ffffff",
    ansi := { black := "#000000", red := "#ff0000", green := "#00ff00", yellow := "#ffff00",
              blue := "#0000ff", magenta := "#ff00ff", cyan := "#00ffff", white := "#ffffff",
              brightBlack := "#666666", brightRed := "#ff6666", brightGreen := "#66ff66",
              brightYellow := "#ffff66", brightBlue := "#6666ff", brightMagenta := "#ff66ff",
              brightCyan := "#66ffff", brightWhite := "#ffffff" } }

/-- Claim C10, witness: the theorem applied to a store holding exactly one
row — all slots populated, and the absent foreground slot gets its default. -/
theorem spec_c10_witness :
    allPopulated c10WitnessColors ∧ c10WitnessColors.foreground = "#ffffff" :=
  ⟨(spec_c10_theorem c10Rows).2.2.1 c10WitnessColors rfl,
   ((spec_c10_theorem c10Rows).2.2.2 c10WitnessColors rfl).2.1 rfl⟩
